import Mathlib

set_option maxRecDepth 4000

/-!
Verification development for the QGIS plugin in `src/olsztyn_geoportal.py`.

The file gives a shallow embedding of the dialog method
`OlsztynGeoportalDialog.download_layer` (lines 144-246 of the source) and of
the static layer catalog built in `__init__` (lines 49-93).  The host
application (QGIS / Qt) is modelled as an environment `Host` that answers the
observations the code makes (layer validity, project CRS state, presence of
`iface`) and may raise an exception at any host API call site.  Running
`download_layer` produces an `Effects` record: the trace of host calls,
message boxes, and the final dialog state.
-/

/-- Message boxes shown by the dialog: `QMessageBox.warning`,
`QMessageBox.information` and `QMessageBox.critical`, each with a title and a
body. -/
inductive Msg where
  | warning (title body : String)
  | information (title body : String)
  | critical (title body : String)
deriving DecidableEq

/-- One value of the dictionary `self.layers` built at lines 52-93.  The
`info` field is an `Option` because the code guards its use with a
key-presence test at line 189 (all five catalog entries do carry it). -/
structure LayerInfo where
  type : String
  url : String
  zmin : Nat
  zmax : Nat
  crs : String
  info : Option String
deriving DecidableEq

/-- Fixed extent string assigned to `self.olsztyn_bbox` at line 49. -/
def olsztyn_bbox : String := "2272000,7129000,2288000,7145000"

/-- Catalog entry for "Standardowa mapa OSM", lines 53-60. -/
def osmLayer : LayerInfo :=
  { type := "xyz", url := "https://tile.openstreetmap.org/{z}/{x}/{y}.png",
    zmin := 0, zmax := 19, crs := "EPSG:3857",
    info := some "Standardowa mapa OpenStreetMap z pełnymi detalami" }

/-- Catalog entry for "OpenTopoMap (topograficzna)", lines 61-68. -/
def topoLayer : LayerInfo :=
  { type := "xyz", url := "https://a.tile.opentopomap.org/{z}/{x}/{y}.png",
    zmin := 0, zmax := 17, crs := "EPSG:3857",
    info := some "Mapa topograficzna ze szlakami i warstwicami" }

/-- Catalog entry for "CyclOSM (dla rowerzystów)", lines 69-76. -/
def cyclLayer : LayerInfo :=
  { type := "xyz", url := "https://a.tile-cyclosm.openstreetmap.fr/cyclosm/{z}/{x}/{y}.png",
    zmin := 0, zmax := 20, crs := "EPSG:3857",
    info := some "Mapa z wyróżnionymi ścieżkami rowerowymi" }

/-- Catalog entry for "Humanitarian (humanitarna)", lines 77-84. -/
def humLayer : LayerInfo :=
  { type := "xyz", url := "https://a.tile.openstreetmap.fr/hot/{z}/{x}/{y}.png",
    zmin := 0, zmax := 20, crs := "EPSG:3857",
    info := some "Mapa humanitarna z wyróżnionymi budynkami" }

/-- Catalog entry for "Transport", lines 85-92. -/
def transportLayer : LayerInfo :=
  { type := "xyz", url := "https://tile.memomaps.de/tilegen/{z}/{x}/{y}.png",
    zmin := 0, zmax := 18, crs := "EPSG:3857",
    info := some "Mapa komunikacji publicznej i transportu" }

/-- Catalog `self.layers` from lines 52-93, as an association list keeping the
insertion order of the Python dictionary. -/
def layers : List (String × LayerInfo) :=
  [("Standardowa mapa OSM", osmLayer),
   ("OpenTopoMap (topograficzna)", topoLayer),
   ("CyclOSM (dla rowerzystów)", cyclLayer),
   ("Humanitarian (humanitarna)", humLayer),
   ("Transport", transportLayer)]

/-- Lookup `self.layers.get(selected_layer)` from line 147: the definition for
the name, or `none` as the not-found signal. -/
def layersGet (name : String) : Option LayerInfo :=
  (layers.find? (fun p => p.1 == name)).map Prod.snd

/-- Display names in catalog order, as used to fill the combo box at
lines 96-97. -/
def layerNames : List String := layers.map Prod.fst

/-- Helper for `pySplit`: walks the characters, cutting at each separator. -/
def splitAux (sep : Char) : List Char → List Char → List String
  | [], acc => [String.mk acc.reverse]
  | c :: cs, acc =>
    if c = sep then String.mk acc.reverse :: splitAux sep cs []
    else splitAux sep cs (c :: acc)

/-- Models the Python expression `s.split(sep)` for a one-character separator,
as used at line 197: splits at every occurrence, keeping empty parts. -/
def pySplit (s : String) (sep : Char) : List String := splitAux sep s.data []

/-- Helper for `pyFloatInt`: reads decimal digits into an accumulator. -/
def parseDigitsAux : List Char → Nat → Option Nat
  | [], acc => some acc
  | c :: cs, acc =>
    if c.isDigit then parseDigitsAux cs (acc * 10 + (c.toNat - 48)) else none

/-- Models the Python conversion `float(s)` at lines 200-201, restricted to
nonnegative decimal integer literals, which is the only shape occurring in the
fixed extent string; every other input is treated as a conversion failure,
which in Python raises `ValueError`. -/
def pyFloatInt (s : String) : Option Int :=
  match s.data with
  | [] => none
  | cs => (parseDigitsAux cs 0).map Int.ofNat

/-- Body of the information box at lines 178-182. -/
def crsInfoBody : String := "Ustawiono CRS projektu na EPSG:3857 (Web Mercator)"

/-- Translates lines 188-190: the extra text appended to the success notice
when the definition carries an `info` entry. -/
def infoTextOf (layer_info : LayerInfo) : String :=
  match layer_info.info with
  | some s => "\n\nℹ️ " ++ s
  | none => ""

/-- Body of the success box at lines 216-222. -/
def successBody (selected_layer : String) (layer_info : LayerInfo) : String :=
  "Warstwa \x27" ++ selected_layer ++ "\x27 została pomyślnie dodana do projektu.\n\n" ++
  "CRS warstwy: " ++ layer_info.crs ++ infoTextOf layer_info ++ "\n\n" ++
  "Widok ustawiony na obszar Olsztyna."

/-- Body of the warning box at lines 226-236, shown when the host reports the
constructed layer as invalid. -/
def failBody (selected_layer : String) (layer_info : LayerInfo) (error_msg : String) : String :=
  "Nie udało się załadować warstwy \x27" ++ selected_layer ++ "\x27.\n\n" ++
  "Możliwe przyczyny:\n" ++
  "• Brak połączenia z internetem\n" ++
  "• Serwer kafelków tymczasowo niedostępny\n" ++
  "• Błędny URL serwisu\n\n" ++
  "Szczegóły: " ++ error_msg ++ "\n\n" ++
  "URL: " ++ layer_info.url

/-- Connection string assembled at lines 159-167: the five `key=value` fields
joined by the ampersand separator, mirroring `"&".join(url_parts)`. -/
def xyzUri (layer_info : LayerInfo) : String :=
  String.intercalate "&"
    ["type=xyz",
     "url=" ++ layer_info.url,
     "zmin=" ++ toString layer_info.zmin,
     "zmax=" ++ toString layer_info.zmax,
     "crs=" ++ layer_info.crs]

/-- Host API call sites inside the `try` block of `download_layer`, in source
order.  Each corresponds to one call into QGIS or Qt that may raise. -/
inductive Site where
  | rasterCtor
  | layerIsValid
  | projInstance
  | projCrsRead
  | crsCtorProject
  | projSetCrs
  | msgCrsInfo
  | projInstance2
  | projAddMapLayer
  | ifaceMapCanvas
  | rectCtor
  | crsCtorCanvas
  | canvasSetDestCrs
  | canvasSetExtent
  | canvasRefresh
  | canvasZoomToFeatureExtent
  | msgSuccess
  | dialogAccept
  | layerErrorRead
  | msgLoadFail
deriving DecidableEq

/-- Environment: the answers the host application gives to the observations
the code makes, plus an exception oracle.  `raises s = some m` means the host
API call at site `s` raises an exception whose text is `m`; a raised call
performs no effect. -/
structure Host where
  layerValid : Bool
  layerError : Option String
  projectCrsValid : Bool
  projectCrsAuthid : String
  ifacePresent : Bool
  raises : Site → Option String

/-- Trace of observable effects of one `download_layer` invocation, together
with the final dialog state. -/
structure Effects where
  messages : List Msg
  rasterCtorCalls : List (String × String × String)
  addMapLayerCalls : Nat
  setProjectCrsCalls : List String
  canvasSetDestCrsCalls : List String
  canvasSetExtentCalls : List (Int × Int × Int × Int)
  canvasRefreshCalls : Nat
  canvasZoomCalls : List (Int × Int × Int × Int)
  accepted : Bool
  progressVisible : Bool
  progressRange : Option (Nat × Nat)
deriving DecidableEq

/-- Performs one host API call: if the host raises at this site, the pending
exception aborts the rest of the `try` block with the trace so far;
otherwise the continuation runs. -/
def hostCall (h : Host) (s : Site) (e : Effects) (k : Effects → Effects × Option String) :
    Effects × Option String :=
  match h.raises s with
  | some m => (e, some m)
  | none => k e

/-- Translates the test at line 175:
`not project.crs().isValid() or project.crs().authid() == ""`. -/
def projectCrsUnset (h : Host) : Bool :=
  !h.projectCrsValid || (h.projectCrsAuthid == "")

/-- Translates line 225: the error detail read from `layer.error().message()`
when the host reports an error object, and the fallback text otherwise. -/
def errMsgOf (h : Host) : String :=
  match h.layerError with
  | some m => m
  | none => "Nieznany błąd"

/-- Lines 193-214: the map view adjustment, guarded by `if self.iface:`.  The
extent string is split at line 197; only when it has exactly four parts are
the rectangle built and the four canvas calls made. -/
def canvasBlock (h : Host) (e : Effects) (k : Effects → Effects × Option String) :
    Effects × Option String :=
  if h.ifacePresent then
    hostCall h .ifaceMapCanvas e fun e =>
    match pySplit olsztyn_bbox ',' with
    | [b0, b1, b2, b3] =>
      match pyFloatInt b0, pyFloatInt b1, pyFloatInt b2, pyFloatInt b3 with
      | some x0, some y0, some x1, some y1 =>
        hostCall h .rectCtor e fun e =>
        hostCall h .crsCtorCanvas e fun e =>
        hostCall h .canvasSetDestCrs e fun e =>
        let e := { e with canvasSetDestCrsCalls := e.canvasSetDestCrsCalls ++ ["EPSG:3857"] }
        hostCall h .canvasSetExtent e fun e =>
        let e := { e with canvasSetExtentCalls := e.canvasSetExtentCalls ++ [(x0, y0, x1, y1)] }
        hostCall h .canvasRefresh e fun e =>
        let e := { e with canvasRefreshCalls := e.canvasRefreshCalls + 1 }
        hostCall h .canvasZoomToFeatureExtent e fun e =>
        let e := { e with canvasZoomCalls := e.canvasZoomCalls ++ [(x0, y0, x1, y1)] }
        k e
      | _, _, _, _ => (e, some "could not convert string to float")
    | _ => k e
  else k e

/-- Lines 185-223: the part of the valid-layer branch after the project CRS
handling: register the layer, adjust the view, show the success notice and
close the dialog. -/
def afterAdd (h : Host) (selected_layer : String) (layer_info : LayerInfo) (e : Effects) :
    Effects × Option String :=
  hostCall h .projInstance2 e fun e =>
  hostCall h .projAddMapLayer e fun e =>
  let e := { e with addMapLayerCalls := e.addMapLayerCalls + 1 }
  canvasBlock h e fun e =>
  hostCall h .msgSuccess e fun e =>
  let e := { e with messages :=
    e.messages ++ [Msg.information "Sukces" (successBody selected_layer layer_info)] }
  hostCall h .dialogAccept e fun e =>
  ({ e with accepted := true }, none)

/-- Lines 156-236: the body of the `try` block.  Returns the accumulated
effects, paired with `some m` when a host API call raised an exception with
text `m` before the block could finish. -/
def tryBody (h : Host) (selected_layer : String) (layer_info : LayerInfo) (e : Effects) :
    Effects × Option String :=
  if layer_info.type == "xyz" then
    hostCall h .rasterCtor e fun e =>
    let e := { e with rasterCtorCalls :=
      e.rasterCtorCalls ++ [(xyzUri layer_info, selected_layer, "wms")] }
    hostCall h .layerIsValid e fun e =>
    if h.layerValid then
      hostCall h .projInstance e fun e =>
      hostCall h .projCrsRead e fun e =>
      if projectCrsUnset h then
        hostCall h .crsCtorProject e fun e =>
        hostCall h .projSetCrs e fun e =>
        let e := { e with setProjectCrsCalls := e.setProjectCrsCalls ++ ["EPSG:3857"] }
        hostCall h .msgCrsInfo e fun e =>
        let e := { e with messages := e.messages ++ [Msg.information "Informacja" crsInfoBody] }
        afterAdd h selected_layer layer_info e
      else
        afterAdd h selected_layer layer_info e
    else
      hostCall h .layerErrorRead e fun e =>
      hostCall h .msgLoadFail e fun e =>
      let e := { e with messages :=
        e.messages ++ [Msg.warning "Błąd ładowania warstwy"
          (failBody selected_layer layer_info (errMsgOf h))] }
      (e, none)
  else
    (e, none)

/-- Effects record at dialog start: nothing has happened yet; the progress bar
carries the visibility it had before the click. -/
def startEffects (progress0 : Bool) : Effects :=
  { messages := [], rasterCtorCalls := [], addMapLayerCalls := 0,
    setProjectCrsCalls := [], canvasSetDestCrsCalls := [], canvasSetExtentCalls := [],
    canvasRefreshCalls := 0, canvasZoomCalls := [], accepted := false,
    progressVisible := progress0, progressRange := none }

/-- State after lines 153-154: the progress bar was made visible and its range
set to the busy indicator. -/
def runningEffects (progress0 : Bool) : Effects :=
  { startEffects progress0 with progressVisible := true, progressRange := some (0, 0) }

/-- Lines 144-246: the whole `download_layer` method.  `selected_layer` is the
current combo box text, `progress0` the visibility of the progress bar before
the click.  The totality of this function embeds the broad `except Exception`
handler: no exception escapes to the caller. -/
def download_layer (h : Host) (selected_layer : String) (progress0 : Bool) : Effects :=
  let e0 := startEffects progress0
  match layersGet selected_layer with
  | none => { e0 with messages := e0.messages ++ [Msg.warning "Błąd" "Nie wybrano warstwy."] }
  | some layer_info =>
    let r := tryBody h selected_layer layer_info (runningEffects progress0)
    let e2 := r.1
    let e3 :=
      match r.2 with
      | some m =>
        { e2 with messages :=
          e2.messages ++ [Msg.critical "Błąd" ("Wystąpił nieoczekiwany błąd:\n" ++ m)] }
      | none => e2
    { e3 with progressVisible := false }

/-- Host double with an always-valid layer, an unset project CRS, a present
iface and no exceptions; used to exercise the theorems on concrete runs. -/
def stubHost : Host :=
  { layerValid := true, layerError := none, projectCrsValid := false,
    projectCrsAuthid := "", ifacePresent := true, raises := fun _ => none }

/-- Every successful catalog lookup returns a pair of the catalog list. -/
theorem layersGet_mem (n : String) (li : LayerInfo) (h : layersGet n = some li) :
    (n, li) ∈ layers := by
  unfold layersGet at h
  rcases Option.map_eq_some'.mp h with ⟨pr, hfind, hsnd⟩
  have hkey := List.find?_some hfind
  have hmem := List.mem_of_find?_eq_some hfind
  rcases pr with ⟨a, b⟩
  simp only [beq_iff_eq] at hkey
  simp only at hsnd
  subst hkey
  subst hsnd
  exact hmem

/-- Case analysis on a successful catalog lookup: the name and the definition
are one of the five catalog rows. -/
theorem layersGet_cases (n : String) (li : LayerInfo) (h : layersGet n = some li) :
    n = "Standardowa mapa OSM" ∧ li = osmLayer ∨
    n = "OpenTopoMap (topograficzna)" ∧ li = topoLayer ∨
    n = "CyclOSM (dla rowerzystów)" ∧ li = cyclLayer ∨
    n = "Humanitarian (humanitarna)" ∧ li = humLayer ∨
    n = "Transport" ∧ li = transportLayer := by
  have hmem := layersGet_mem n li h
  simpa [layers, Prod.ext_iff] using hmem

/-- Every catalog definition has the xyz type tag and the Web Mercator CRS
identifier. -/
theorem layersGet_fields (n : String) (li : LayerInfo) (h : layersGet n = some li) :
    li.type = "xyz" ∧ li.crs = "EPSG:3857" := by
  rcases layersGet_cases n li h with ⟨-, rfl⟩ | ⟨-, rfl⟩ | ⟨-, rfl⟩ | ⟨-, rfl⟩ | ⟨-, rfl⟩ <;>
    exact ⟨rfl, rfl⟩

/-- Evaluation of the fixed extent split from line 197. -/
theorem bbox_split : pySplit olsztyn_bbox ',' = ["2272000", "7129000", "2288000", "7145000"] := by
  decide

/-- Evaluation of the first coordinate conversion. -/
theorem bbox_c0 : pyFloatInt "2272000" = some 2272000 := by decide

/-- Evaluation of the second coordinate conversion. -/
theorem bbox_c1 : pyFloatInt "7129000" = some 7129000 := by decide

/-- Evaluation of the third coordinate conversion. -/
theorem bbox_c2 : pyFloatInt "2288000" = some 2288000 := by decide

/-- Evaluation of the fourth coordinate conversion. -/
theorem bbox_c3 : pyFloatInt "7145000" = some 7145000 := by decide

/-- Full characterisation of a run in which the host raises no exception and
reports the constructed layer as valid. -/
theorem run_success (h : Host) (n : String) (li : LayerInfo) (p0 : Bool)
    (hsel : layersGet n = some li) (hr : ∀ s, h.raises s = none) (hv : h.layerValid = true) :
    download_layer h n p0 =
      { messages := (if projectCrsUnset h then [Msg.information "Informacja" crsInfoBody] else []) ++
          [Msg.information "Sukces" (successBody n li)],
        rasterCtorCalls := [(xyzUri li, n, "wms")],
        addMapLayerCalls := 1,
        setProjectCrsCalls := if projectCrsUnset h then ["EPSG:3857"] else [],
        canvasSetDestCrsCalls := if h.ifacePresent then ["EPSG:3857"] else [],
        canvasSetExtentCalls := if h.ifacePresent then [(2272000, 7129000, 2288000, 7145000)] else [],
        canvasRefreshCalls := if h.ifacePresent then 1 else 0,
        canvasZoomCalls := if h.ifacePresent then [(2272000, 7129000, 2288000, 7145000)] else [],
        accepted := true,
        progressVisible := false,
        progressRange := some (0, 0) } := by
  obtain ⟨hty, -⟩ := layersGet_fields n li hsel
  cases hcu : projectCrsUnset h <;> cases hif : h.ifacePresent <;>
    simp [download_layer, hsel, tryBody, afterAdd, canvasBlock, hostCall, hr, hv, hty, hcu, hif,
      runningEffects, startEffects, bbox_split, bbox_c0, bbox_c1, bbox_c2, bbox_c3]

/-- Full characterisation of a run in which the host raises no exception and
reports the constructed layer as invalid. -/
theorem run_invalid (h : Host) (n : String) (li : LayerInfo) (p0 : Bool)
    (hsel : layersGet n = some li) (hr : ∀ s, h.raises s = none) (hv : h.layerValid = false) :
    download_layer h n p0 =
      { messages := [Msg.warning "Błąd ładowania warstwy" (failBody n li (errMsgOf h))],
        rasterCtorCalls := [(xyzUri li, n, "wms")],
        addMapLayerCalls := 0, setProjectCrsCalls := [], canvasSetDestCrsCalls := [],
        canvasSetExtentCalls := [], canvasRefreshCalls := 0, canvasZoomCalls := [],
        accepted := false, progressVisible := false, progressRange := some (0, 0) } := by
  obtain ⟨hty, -⟩ := layersGet_fields n li hsel
  simp [download_layer, hsel, tryBody, hostCall, hr, hv, hty, runningEffects, startEffects]

/-- Full characterisation of a run on a name that is not a catalog key. -/
theorem run_unknown (h : Host) (n : String) (p0 : Bool) (hsel : layersGet n = none) :
    download_layer h n p0 =
      { startEffects p0 with messages := [Msg.warning "Błąd" "Nie wybrano warstwy."] } := by
  simp [download_layer, hsel, startEffects]

/-- When a host API call raises inside the `try` block, the dialog was not yet
accepted: the `self.accept()` call is the last statement of the block. -/
theorem tryBody_exc_accepted (h : Host) (n : String) (li : LayerInfo) (e : Effects)
    (e2 : Effects) (m : String) (heq : tryBody h n li e = (e2, some m)) :
    e2.accepted = e.accepted := by
  simp only [tryBody, afterAdd, canvasBlock, hostCall,
    bbox_split, bbox_c0, bbox_c1, bbox_c2, bbox_c3] at heq
  repeat' split at heq
  all_goals injection heq with h1 h2
  all_goals first
    | (subst h1; rfl)
    | cases h2

/-- C1: selecting "Standardowa mapa OSM" against a host whose raster layer
construction reports a valid layer, with no exceptions and a present map
canvas, makes exactly one addMapLayer call and exactly one setExtent call on
the canvas, passing the fixed bounding box. -/
theorem c1_osm_one_add_one_extent (h : Host) (p0 : Bool)
    (hr : ∀ s, h.raises s = none) (hv : h.layerValid = true) (hi : h.ifacePresent = true) :
    (download_layer h "Standardowa mapa OSM" p0).addMapLayerCalls = 1 ∧
    (download_layer h "Standardowa mapa OSM" p0).canvasSetExtentCalls =
      [(2272000, 7129000, 2288000, 7145000)] := by
  rw [run_success h "Standardowa mapa OSM" osmLayer p0 rfl hr hv]
  simp [hi]

/-- Witness for C1 at the stub host. -/
theorem c1_osm_one_add_one_extent_witness :
    (download_layer stubHost "Standardowa mapa OSM" false).addMapLayerCalls = 1 ∧
    (download_layer stubHost "Standardowa mapa OSM" false).canvasSetExtentCalls =
      [(2272000, 7129000, 2288000, 7145000)] :=
  c1_osm_one_add_one_extent stubHost false (fun _ => rfl) rfl rfl

/-- C2: for every catalog definition, when instantiation succeeds and no host
call raises, exactly one project CRS mutation is made when the project CRS was
unset, it sets the CRS identifier of the selected definition, and the user is
notified; when the project CRS was already set, no mutation is made. -/
theorem c2_project_crs_mutation (h : Host) (p0 : Bool) (n : String) (li : LayerInfo)
    (hsel : layersGet n = some li)
    (hr : ∀ s, h.raises s = none) (hv : h.layerValid = true) :
    (projectCrsUnset h = true →
      (download_layer h n p0).setProjectCrsCalls = [li.crs] ∧
      Msg.information "Informacja" crsInfoBody ∈ (download_layer h n p0).messages) ∧
    (projectCrsUnset h = false →
      (download_layer h n p0).setProjectCrsCalls = []) := by
  obtain ⟨-, hcrs⟩ := layersGet_fields n li hsel
  rw [run_success h n li p0 hsel hr hv]
  constructor
  · intro hcu
    simp [hcu, hcrs]
  · intro hcu
    simp [hcu]

/-- Witness for C2 at the stub host, whose project CRS is unset. -/
theorem c2_project_crs_mutation_witness :
    (download_layer stubHost "Standardowa mapa OSM" false).setProjectCrsCalls = [osmLayer.crs] ∧
    Msg.information "Informacja" crsInfoBody ∈
      (download_layer stubHost "Standardowa mapa OSM" false).messages :=
  (c2_project_crs_mutation stubHost false "Standardowa mapa OSM" osmLayer rfl
    (fun _ => rfl) rfl).1 rfl

/-- C3: confirming a name that is not a catalog key shows the warning box and
makes no raster construction call, no project mutation and no map view call. -/
theorem c3_unknown_name (h : Host) (p0 : Bool) (n : String) (hsel : layersGet n = none) :
    (download_layer h n p0).messages = [Msg.warning "Błąd" "Nie wybrano warstwy."] ∧
    (download_layer h n p0).rasterCtorCalls = [] ∧
    (download_layer h n p0).addMapLayerCalls = 0 ∧
    (download_layer h n p0).setProjectCrsCalls = [] ∧
    (download_layer h n p0).canvasSetDestCrsCalls = [] ∧
    (download_layer h n p0).canvasSetExtentCalls = [] ∧
    (download_layer h n p0).canvasRefreshCalls = 0 ∧
    (download_layer h n p0).canvasZoomCalls = [] := by
  rw [run_unknown h n p0 hsel]
  exact ⟨rfl, rfl, rfl, rfl, rfl, rfl, rfl, rfl⟩

/-- Witness for C3 at a name outside the catalog. -/
theorem c3_unknown_name_witness :
    (download_layer stubHost "Ortofotomapa" false).messages =
      [Msg.warning "Błąd" "Nie wybrano warstwy."] ∧
    (download_layer stubHost "Ortofotomapa" false).rasterCtorCalls = [] ∧
    (download_layer stubHost "Ortofotomapa" false).addMapLayerCalls = 0 ∧
    (download_layer stubHost "Ortofotomapa" false).setProjectCrsCalls = [] ∧
    (download_layer stubHost "Ortofotomapa" false).canvasSetDestCrsCalls = [] ∧
    (download_layer stubHost "Ortofotomapa" false).canvasSetExtentCalls = [] ∧
    (download_layer stubHost "Ortofotomapa" false).canvasRefreshCalls = 0 ∧
    (download_layer stubHost "Ortofotomapa" false).canvasZoomCalls = [] :=
  c3_unknown_name stubHost false "Ortofotomapa" (by decide)

/-- Host double whose raster layer construction reports an invalid layer with
an error detail. -/
def invalidHost : Host :=
  { stubHost with layerValid := false, layerError := some "Connection refused" }

/-- C4: for every catalog definition, when the host reports the constructed
layer as invalid, nothing is registered, the project CRS is untouched, the
dialog stays open, and the single warning box contains the host error detail
and the attempted template URL. -/
theorem c4_invalid_layer (h : Host) (p0 : Bool) (n : String) (li : LayerInfo)
    (hsel : layersGet n = some li) (hr : ∀ s, h.raises s = none)
    (hv : h.layerValid = false) :
    (download_layer h n p0).addMapLayerCalls = 0 ∧
    (download_layer h n p0).setProjectCrsCalls = [] ∧
    (download_layer h n p0).accepted = false ∧
    (download_layer h n p0).messages =
      [Msg.warning "Błąd ładowania warstwy" (failBody n li (errMsgOf h))] ∧
    (errMsgOf h).data <:+: (failBody n li (errMsgOf h)).data ∧
    li.url.data <:+: (failBody n li (errMsgOf h)).data := by
  rw [run_invalid h n li p0 hsel hr hv]
  refine ⟨rfl, rfl, rfl, rfl, ?_, ?_⟩
  · refine ⟨("Nie udało się załadować warstwy \x27" ++ n ++ "\x27.\n\n" ++
      "Możliwe przyczyny:\n" ++ "• Brak połączenia z internetem\n" ++
      "• Serwer kafelków tymczasowo niedostępny\n" ++ "• Błędny URL serwisu\n\n" ++
      "Szczegóły: ").data, ("\n\n" ++ "URL: " ++ li.url).data, ?_⟩
    simp [failBody, String.data_append]
  · refine ⟨("Nie udało się załadować warstwy \x27" ++ n ++ "\x27.\n\n" ++
      "Możliwe przyczyny:\n" ++ "• Brak połączenia z internetem\n" ++
      "• Serwer kafelków tymczasowo niedostępny\n" ++ "• Błędny URL serwisu\n\n" ++
      "Szczegóły: " ++ errMsgOf h ++ "\n\n" ++ "URL: ").data, [], ?_⟩
    simp [failBody, String.data_append]

/-- Witness for C4 at the invalid host. -/
theorem c4_invalid_layer_witness :
    (download_layer invalidHost "Standardowa mapa OSM" false).addMapLayerCalls = 0 ∧
    (download_layer invalidHost "Standardowa mapa OSM" false).setProjectCrsCalls = [] ∧
    (download_layer invalidHost "Standardowa mapa OSM" false).accepted = false ∧
    (download_layer invalidHost "Standardowa mapa OSM" false).messages =
      [Msg.warning "Błąd ładowania warstwy"
        (failBody "Standardowa mapa OSM" osmLayer (errMsgOf invalidHost))] ∧
    (errMsgOf invalidHost).data <:+:
      (failBody "Standardowa mapa OSM" osmLayer (errMsgOf invalidHost)).data ∧
    osmLayer.url.data <:+:
      (failBody "Standardowa mapa OSM" osmLayer (errMsgOf invalidHost)).data :=
  c4_invalid_layer invalidHost false "Standardowa mapa OSM" osmLayer rfl (fun _ => rfl) rfl

/-- C5: for every catalog definition, the connection string passed to the
raster layer construction call is exactly the five fields, in order, joined by
the ampersand, with values taken from the definition. -/
theorem c5_connection_string (h : Host) (p0 : Bool) (n : String) (li : LayerInfo)
    (hsel : layersGet n = some li) (hr : ∀ s, h.raises s = none) :
    (download_layer h n p0).rasterCtorCalls = [(xyzUri li, n, "wms")] ∧
    xyzUri li = "type=xyz&url=" ++ li.url ++ "&zmin=" ++ toString li.zmin ++
      "&zmax=" ++ toString li.zmax ++ "&crs=" ++ li.crs := by
  constructor
  · cases hv : h.layerValid
    · rw [run_invalid h n li p0 hsel hr hv]
    · rw [run_success h n li p0 hsel hr hv]
  · rcases layersGet_cases n li hsel with ⟨-, rfl⟩ | ⟨-, rfl⟩ | ⟨-, rfl⟩ | ⟨-, rfl⟩ | ⟨-, rfl⟩ <;>
      decide

/-- Witness for C5 at the stub host, including the fully evaluated string. -/
theorem c5_connection_string_witness :
    (download_layer stubHost "Standardowa mapa OSM" false).rasterCtorCalls =
      [("type=xyz&url=https://tile.openstreetmap.org/{z}/{x}/{y}.png&zmin=0&zmax=19&crs=EPSG:3857",
        "Standardowa mapa OSM", "wms")] :=
  ((c5_connection_string stubHost false "Standardowa mapa OSM" osmLayer rfl
    (fun _ => rfl)).1).trans (by decide)

/-- C6: lookup of every display name in the catalog returns a definition with
a non-empty URL template containing the z, x and y placeholders; lookup of any
other name returns the not-found signal. -/
theorem c6_catalog_lookup (n : String) :
    (n ∈ layerNames →
      ∃ li, layersGet n = some li ∧ li.url ≠ "" ∧
        "{z}".data <:+: li.url.data ∧ "{x}".data <:+: li.url.data ∧
        "{y}".data <:+: li.url.data) ∧
    (n ∉ layerNames → layersGet n = none) := by
  constructor
  · intro hmem
    simp [layerNames, layers] at hmem
    rcases hmem with rfl | rfl | rfl | rfl | rfl
    · exact ⟨osmLayer, rfl, by decide, by decide, by decide, by decide⟩
    · exact ⟨topoLayer, rfl, by decide, by decide, by decide, by decide⟩
    · exact ⟨cyclLayer, rfl, by decide, by decide, by decide, by decide⟩
    · exact ⟨humLayer, rfl, by decide, by decide, by decide, by decide⟩
    · exact ⟨transportLayer, rfl, by decide, by decide, by decide, by decide⟩
  · intro hmem
    cases hfind : layersGet n with
    | none => rfl
    | some li =>
      exfalso
      rcases layersGet_cases n li hfind with ⟨rfl, -⟩ | ⟨rfl, -⟩ | ⟨rfl, -⟩ | ⟨rfl, -⟩ | ⟨rfl, -⟩ <;>
        exact hmem (by decide)

/-- Witness for C6 at a catalog key. -/
theorem c6_catalog_lookup_witness :
    ∃ li, layersGet "Standardowa mapa OSM" = some li ∧ li.url ≠ "" ∧
      "{z}".data <:+: li.url.data ∧ "{x}".data <:+: li.url.data ∧
      "{y}".data <:+: li.url.data :=
  (c6_catalog_lookup "Standardowa mapa OSM").1 (by decide)

/-- C7: splitting the fixed extent string on the comma yields exactly four
components, they convert to the numeric bounds west, south, east, north, and
west is less than east while south is less than north. -/
theorem c7_bbox_parse :
    pySplit olsztyn_bbox ',' = ["2272000", "7129000", "2288000", "7145000"] ∧
    (pySplit olsztyn_bbox ',').length = 4 ∧
    (pySplit olsztyn_bbox ',').map pyFloatInt =
      [some 2272000, some 7129000, some 2288000, some 7145000] ∧
    (2272000 : Int) < 2288000 ∧ (7129000 : Int) < 7145000 := by
  decide

/-- C8: whenever a host API call inside the try block raises an exception, the
exception is caught (download_layer is total by construction), the critical
box with the generic text plus the exception text is shown, the dialog is not
accepted, and the progress bar ends hidden. -/
theorem c8_exception_caught (h : Host) (p0 : Bool) (n : String) (li : LayerInfo)
    (hsel : layersGet n = some li) (e2 : Effects) (m : String)
    (heq : tryBody h n li (runningEffects p0) = (e2, some m)) :
    Msg.critical "Błąd" ("Wystąpił nieoczekiwany błąd:\n" ++ m) ∈
      (download_layer h n p0).messages ∧
    (download_layer h n p0).accepted = false ∧
    (download_layer h n p0).progressVisible = false := by
  have hacc := tryBody_exc_accepted h n li (runningEffects p0) e2 m heq
  have hrun : download_layer h n p0 =
      { e2 with
        messages := e2.messages ++
          [Msg.critical "Błąd" ("Wystąpił nieoczekiwany błąd:\n" ++ m)],
        progressVisible := false } := by
    simp [download_layer, hsel, heq]
  rw [hrun]
  refine ⟨by simp, ?_, rfl⟩
  simpa [runningEffects, startEffects] using hacc

/-- Host double that raises at the raster construction call. -/
def raisingHost : Host :=
  { stubHost with raises := fun s => match s with
      | Site.rasterCtor => some "boom"
      | _ => none }

/-- Witness for C8 at the raising host. -/
theorem c8_exception_caught_witness :
    Msg.critical "Błąd" ("Wystąpił nieoczekiwany błąd:\n" ++ "boom") ∈
      (download_layer raisingHost "Standardowa mapa OSM" false).messages ∧
    (download_layer raisingHost "Standardowa mapa OSM" false).accepted = false ∧
    (download_layer raisingHost "Standardowa mapa OSM" false).progressVisible = false :=
  c8_exception_caught raisingHost false "Standardowa mapa OSM" osmLayer rfl
    (runningEffects false) "boom" (by decide)

/-- C9: after every invocation that starts with a hidden progress bar, the
progress bar is hidden again, whatever the host did. -/
theorem c9_progress_hidden (h : Host) (n : String) (p0 : Bool) (hp : p0 = false) :
    (download_layer h n p0).progressVisible = false := by
  subst hp
  cases hsel : layersGet n with
  | none => rw [run_unknown h n false hsel]; rfl
  | some li => simp [download_layer, hsel]

/-- Witness for C9 at the stub host. -/
theorem c9_progress_hidden_witness :
    (download_layer stubHost "Standardowa mapa OSM" false).progressVisible = false :=
  c9_progress_hidden stubHost "Standardowa mapa OSM" false rfl

/-- Host double without a host interface object. -/
def nullIfaceHost : Host := { stubHost with ifacePresent := false }

/-- C10: with a null iface and a valid layer, the layer is still registered
and the dialog accepted with the success notice shown, but no canvas call is
made, although the success text claims the view was set to the Olsztyn area. -/
theorem c10_null_iface (h : Host) (p0 : Bool) (n : String) (li : LayerInfo)
    (hsel : layersGet n = some li) (hr : ∀ s, h.raises s = none)
    (hv : h.layerValid = true) (hi : h.ifacePresent = false) :
    (download_layer h n p0).addMapLayerCalls = 1 ∧
    (download_layer h n p0).accepted = true ∧
    Msg.information "Sukces" (successBody n li) ∈ (download_layer h n p0).messages ∧
    (download_layer h n p0).canvasSetDestCrsCalls = [] ∧
    (download_layer h n p0).canvasSetExtentCalls = [] ∧
    (download_layer h n p0).canvasRefreshCalls = 0 ∧
    (download_layer h n p0).canvasZoomCalls = [] ∧
    "Widok ustawiony na obszar Olsztyna.".data <:+: (successBody n li).data := by
  rw [run_success h n li p0 hsel hr hv]
  refine ⟨rfl, rfl, by simp, by simp [hi], by simp [hi], by simp [hi], by simp [hi], ?_⟩
  refine ⟨("Warstwa \x27" ++ n ++ "\x27 została pomyślnie dodana do projektu.\n\n" ++
    "CRS warstwy: " ++ li.crs ++ infoTextOf li ++ "\n\n").data, [], ?_⟩
  simp [successBody, String.data_append]

/-- Witness for C10 at the null iface host. -/
theorem c10_null_iface_witness :
    (download_layer nullIfaceHost "Standardowa mapa OSM" false).addMapLayerCalls = 1 ∧
    (download_layer nullIfaceHost "Standardowa mapa OSM" false).accepted = true ∧
    Msg.information "Sukces" (successBody "Standardowa mapa OSM" osmLayer) ∈
      (download_layer nullIfaceHost "Standardowa mapa OSM" false).messages ∧
    (download_layer nullIfaceHost "Standardowa mapa OSM" false).canvasSetDestCrsCalls = [] ∧
    (download_layer nullIfaceHost "Standardowa mapa OSM" false).canvasSetExtentCalls = [] ∧
    (download_layer nullIfaceHost "Standardowa mapa OSM" false).canvasRefreshCalls = 0 ∧
    (download_layer nullIfaceHost "Standardowa mapa OSM" false).canvasZoomCalls = [] ∧
    "Widok ustawiony na obszar Olsztyna.".data <:+:
      (successBody "Standardowa mapa OSM" osmLayer).data :=
  c10_null_iface nullIfaceHost false "Standardowa mapa OSM" osmLayer rfl
    (fun _ => rfl) rfl rfl
